import Mathlib

/-!
Shallow embedding of the TerraChallenge FIRMS prebake pipeline.

Source files embedded here:
* `src/tools/serve-static.mjs` (the prebake script appended to the static
  server): `rowToFeature`, `featureKey`, `fetchSliceRetry`, `readExistingCount`,
  `prebakeMonth`, `daysInMonth`, and the window-planning loop inside
  `prebakeMonth`.
* `src/unnamed/part_000` (the batch-import variant): `isInBox`, `featureKey`,
  `rowToFeature`, and the per-month dedup fold in `main`.

Modelling conventions:
* A JavaScript number is `JSNum`: `NaN`, the two infinities, or a finite
  value carried as a rational.  The double-precision rounding of the host
  language is not modelled; none of the verified properties depend on it.
* The string-to-number primitive `Number(cell)` applied to a raw CSV cell is
  kept abstract: definitions that use it take a `number : String → JSNum`
  argument, and `Number(undefined) = NaN` is hard-coded (`jsNumber`).
* `x.toFixed(4)` is modelled by `fixed4String`, following the ECMAScript
  algorithm for `|x| < 10^21`: for negative x a leading sign is printed and
  the magnitude is rounded; the integer `n` closest to `|x|·10^4` is chosen,
  ties going to the larger `n` (half-up on the magnitude).
* A JS `Map` is an insertion-ordered association list; `Map.set` on an
  existing key replaces the value in place, `Map.has`/`get` use key equality.
* The HTTP layer is an oracle `responses : Nat → FetchResponse` giving the
  outcome `fetchSlice` would observe on each attempt of one (source, window)
  request; a whole month is a list of such oracles, in iteration order.
-/

/-- A JavaScript number: NaN, ±Infinity, or a finite value (as a rational). -/
inductive JSNum where
  | nan : JSNum
  | posInf : JSNum
  | negInf : JSNum
  | num : ℚ → JSNum
deriving DecidableEq

/-- JS `a <= b`: false whenever either side is NaN. -/
def jsLe : JSNum → JSNum → Bool
  | .nan, _ => false
  | _, .nan => false
  | .negInf, _ => true
  | _, .posInf => true
  | .posInf, _ => false
  | _, .negInf => false
  | .num a, .num b => decide (a ≤ b)

/-- JS `a >= b`: false whenever either side is NaN. -/
def jsGe (a b : JSNum) : Bool := jsLe b a

/-- JS `Number.isFinite`. -/
def jsFinite : JSNum → Bool
  | .num _ => true
  | _ => false

/-- JS `Number(x)` for an optional raw string cell: an absent cell is
`undefined`, and `Number(undefined)` is NaN; a present cell is parsed by the
abstract string-to-number primitive. -/
def jsNumber (number : String → JSNum) : Option String → JSNum
  | none => .nan
  | some s => number s

/-- JS truthiness of an optional string: `undefined` and the empty string are
falsy, every other string is truthy. -/
def truthy : Option String → Bool
  | none => false
  | some s => !(s == "")

/-- Interpolating an optional string into a template literal:
`${undefined}` prints as the string "undefined". -/
def jsStr : Option String → String
  | none => "undefined"
  | some s => s

/-- JS `x || ''` on an optional string: `undefined` and `""` both yield `""`. -/
def jsOrEmpty : Option String → String
  | none => ""
  | some s => s

/-- JS `a || b || ''` on optional strings (used for the `src` property). -/
def jsOrDefaultStr (a b : Option String) : String :=
  if truthy a then jsOrEmpty a else if truthy b then jsOrEmpty b else ""

/-- The scaled magnitude chosen by `toFixed(4)` for a finite value `q`:
`⌊|q| · 10^4 + 1/2⌋`, computed on numerator and denominator. -/
def ratScaled4 (q : ℚ) : Nat :=
  (2 * q.num.natAbs * 10000 + q.den) / (2 * q.den)

/-- Left-pad the fractional digits of `toFixed(4)` to width 4. -/
def pad4 (f : Nat) : String :=
  (List.replicate (4 - (toString f).length) '0').asString ++ toString f

/-- JS `x.toFixed(4)` (for `|x| < 10^21`; larger magnitudes, which cannot
occur for coordinates, fall back to plain decimal printing in JS). -/
def fixed4String : JSNum → String
  | .nan => "NaN"
  | .posInf => "Infinity"
  | .negInf => "-Infinity"
  | .num q =>
      (if q < 0 then "-" else "")
        ++ toString (ratScaled4 q / 10000) ++ "." ++ pad4 (ratScaled4 q % 10000)

/-- Canonical feature built by `rowToFeature` in `serve-static.mjs`:
point coordinates plus the properties object (fields deleted when
`undefined` are `none`; `frp` is numeric when the raw cell was truthy). -/
structure Feature where
  lon : JSNum
  lat : JSNum
  acq_date : Option String
  acq_time : Option String
  satellite : Option String
  instrument : Option String
  confidence : Option String
  frp : Option JSNum
  daynight : Option String
  version : Option String
  src : String
deriving DecidableEq

/-- A raw CSV row as seen by `rowToFeature` in `serve-static.mjs`
(each field a raw cell, absent columns `none`). -/
structure SRow where
  latitude : Option String
  longitude : Option String
  acq_date : Option String
  acq_time : Option String
  satellite : Option String
  instrument : Option String
  confidence : Option String
  frp : Option String
  daynight : Option String
  version : Option String
  src : Option String
  source : Option String
deriving DecidableEq

/-- `rowToFeature` from `serve-static.mjs` (lines 110-120): parses the
coordinates with `Number`, copies the ancillary fields, and always returns a
feature — there is no finiteness or bounding-box check on this path. -/
def rowToFeatureS (number : String → JSNum) (row : SRow) : Feature :=
  { lon := jsNumber number row.longitude
    lat := jsNumber number row.latitude
    acq_date := row.acq_date
    acq_time := row.acq_time
    satellite := row.satellite
    instrument := row.instrument
    confidence := row.confidence
    frp := if truthy row.frp then some (jsNumber number row.frp) else none
    daynight := row.daynight
    version := row.version
    src := jsOrDefaultStr row.src row.source }

/-- `featureKey` from `serve-static.mjs` (lines 121-124): the colon-joined
template string over rounded coordinates, date, time, instrument, satellite. -/
def featureKey (f : Feature) : String :=
  fixed4String f.lon ++ ":" ++ fixed4String f.lat ++ ":"
    ++ jsStr f.acq_date ++ ":" ++ jsStr f.acq_time ++ ":"
    ++ jsOrEmpty f.instrument ++ ":" ++ jsOrEmpty f.satellite

/-- Canonical feature built by `rowToFeature` in `src/unnamed/part_000`
(properties kept as the raw coalesced cells; no deletion of undefined). -/
structure BFeature where
  lon : JSNum
  lat : JSNum
  acq_date : Option String
  acq_time : Option String
  satellite : Option String
  instrument : Option String
  confidence : Option String
  frp : Option String
  daynight : Option String
  version : Option String
deriving DecidableEq

/-- A raw row as seen by `rowToFeature` in `src/unnamed/part_000`, with the
alternate historical spellings of each field. -/
structure Row where
  latitude : Option String
  Latitude : Option String
  lat : Option String
  longitude : Option String
  Longitude : Option String
  lon : Option String
  acq_date : Option String
  ACQ_DATE : Option String
  date : Option String
  acq_time : Option String
  ACQ_TIME : Option String
  time : Option String
  satellite : Option String
  SATELLITE : Option String
  instrument : Option String
  INSTRUMENT : Option String
  confidence : Option String
  CONFIDENCE : Option String
  frp : Option String
  FRP : Option String
  daynight : Option String
  DAYNIGHT : Option String
  version : Option String
  VERSION : Option String
deriving DecidableEq

/-- `isInBox` from `src/unnamed/part_000` (line 16):
`lon>=WEST && lon<=EAST && lat>=SOUTH && lat<=NORTH` with JS comparison
semantics; the run's bounding box is finite (§3 invariant), so the bounds are
rationals. -/
def isInBox (west south east north : ℚ) (lon lat : JSNum) : Bool :=
  jsGe lon (.num west) && jsLe lon (.num east)
    && jsGe lat (.num south) && jsLe lat (.num north)

/-- `rowToFeature` from `src/unnamed/part_000` (lines 24-40): coalesces the
alternate spellings, parses the coordinates, and returns `none` (JS `null`)
when a coordinate is not finite or `isInBox` rejects it. -/
def rowToFeatureB (number : String → JSNum) (west south east north : ℚ)
    (row : Row) : Option BFeature :=
  let latN := jsNumber number (row.latitude.or (row.Latitude.or row.lat))
  let lonN := jsNumber number (row.longitude.or (row.Longitude.or row.lon))
  if !(jsFinite latN) || !(jsFinite lonN) then none
  else if !(isInBox west south east north lonN latN) then none
  else some
    { lon := lonN
      lat := latN
      acq_date := row.acq_date.or (row.ACQ_DATE.or row.date)
      acq_time := row.acq_time.or (row.ACQ_TIME.or row.time)
      satellite := row.satellite.or row.SATELLITE
      instrument := row.instrument.or row.INSTRUMENT
      confidence := row.confidence.or row.CONFIDENCE
      frp := row.frp.or row.FRP
      daynight := row.daynight.or row.DAYNIGHT
      version := row.version.or row.VERSION }

/-- `featureKey` from `src/unnamed/part_000` (lines 19-22); textually the same
formula as the one in `serve-static.mjs`, applied to the batch variant's
features. -/
def featureKeyB (f : BFeature) : String :=
  fixed4String f.lon ++ ":" ++ fixed4String f.lat ++ ":"
    ++ jsStr f.acq_date ++ ":" ++ jsStr f.acq_time ++ ":"
    ++ jsOrEmpty f.instrument ++ ":" ++ jsOrEmpty f.satellite

/-- JS `Map.has` on an insertion-ordered association list. -/
def mapHas {α : Type} (b : List (String × α)) (k : String) : Bool :=
  b.any (fun p => p.1 == k)

/-- JS `Map.set`: replace in place if the key exists, else append. -/
def mapSet {α : Type} (b : List (String × α)) (k : String) (v : α) :
    List (String × α) :=
  if mapHas b k then b.map (fun p => if p.1 == k then (k, v) else p)
  else b ++ [(k, v)]

/-- The dedup fold in `prebakeMonth` (`serve-static.mjs` lines 208-211):
`if (!uniq.has(k)) uniq.set(k, f)` — first-seen wins. -/
def foldFeature (uniq : List (String × Feature)) (f : Feature) :
    List (String × Feature) :=
  if mapHas uniq (featureKey f) then uniq else uniq ++ [(featureKey f, f)]

/-- Folding a list of fetched features into the month bucket, in order. -/
def foldFeatures (uniq : List (String × Feature)) (feats : List Feature) :
    List (String × Feature) :=
  feats.foldl foldFeature uniq

/-- The dedup fold in `main` of `src/unnamed/part_000` (lines 76-77):
`buckets.get(mk).set(dedup, ft)` — an unconditional `Map.set`. -/
def bSet (b : List (String × BFeature)) (ft : BFeature) :
    List (String × BFeature) :=
  mapSet b (featureKeyB ft) ft

/-- The outcome one call to `fetchSlice` would observe: a successful response
(already mapped to features by `rows.map(rowToFeature)`), an HTTP error
status (`!res.ok` throws `HTTP <status> ...`), or a failure carrying no HTTP
status (network error, CSV parse error, ...). -/
inductive FetchResponse where
  | ok : List Feature → FetchResponse
  | httpErr : Nat → FetchResponse
  | otherErr : FetchResponse
deriving DecidableEq

/-- Whether a response is rate-limit-class: `httpStatusFromError` yields 403
or 429 (`serve-static.mjs` lines 136-139, 150). -/
def rateLimited : FetchResponse → Bool
  | .httpErr s => s == 403 || s == 429
  | _ => false

/-- State of the retrying fetcher (spec §4.5), reified from the loop in
`fetchSliceRetry` (`serve-static.mjs` lines 141-162). -/
inductive FState where
  | attempting : Nat → FState
  | succeeded : List Feature → FState
  | exhausted : FState
  | failed : Option Nat → FState
deriving DecidableEq

/-- One iteration of the `fetchSliceRetry` loop at attempt `n`: the next
state, and the backoff sleep performed (in ms), if any.  On a 403/429 the
sleep is `Math.min(120000, 15000 * (attempt + 1))` (line 151) and the loop
continues with `attempt + 1` while `attempt + 1 <= MAX_RETRIES`; any other
error is rethrown; a success ends the loop.  (The fixed pacing sleep of
`THROTTLE_MS` after a success is a separate effect, not a backoff.) -/
def fetchStep (maxRetries : Nat) (resp : FetchResponse) (n : Nat) :
    FState × Option Nat :=
  match resp with
  | .ok feats => (.succeeded feats, none)
  | .httpErr s =>
      if s == 403 || s == 429 then
        (if n + 1 ≤ maxRetries then .attempting (n + 1) else .exhausted,
         some (min 120000 (15000 * (n + 1))))
      else (.failed (some s), none)
  | .otherErr => (.failed none, none)

/-- Running the `fetchSliceRetry` loop from attempt `n` with `gas` remaining
iterations (`gas = maxRetries + 1 - n` at entry; `gas = 0` is the loop exit,
returning `[]`, i.e. `Exhausted`).  The boolean records whether any consulted
response was rate-limit-class. -/
def fetchRunFrom (maxRetries : Nat) (responses : Nat → FetchResponse) :
    Nat → Nat → FState × Bool
  | 0, _ => (.exhausted, false)
  | gas + 1, n =>
      match fetchStep maxRetries (responses n) n with
      | (.attempting m, _) =>
          let r := fetchRunFrom maxRetries responses gas m
          (r.1, r.2 || rateLimited (responses n))
      | (st, _) => (st, rateLimited (responses n))

/-- The full run of `fetchSliceRetry`: attempts 0, 1, ..., `maxRetries`. -/
def fetchRun (maxRetries : Nat) (responses : Nat → FetchResponse) :
    FState × Bool :=
  fetchRunFrom maxRetries responses (maxRetries + 1) 0

/-- What `fetchSliceRetry` delivers to its caller: a feature list, or a
propagated error carrying an optional HTTP status. -/
inductive FetchOutcome where
  | success : List Feature → FetchOutcome
  | error : Option Nat → FetchOutcome
deriving DecidableEq

/-- `fetchSliceRetry` (`serve-static.mjs` lines 141-162): a succeeded run
returns its features, an exhausted run returns `[]` (treated as empty, not an
error), a non-rate-limit failure propagates. -/
def fetchSliceRetry (maxRetries : Nat) (responses : Nat → FetchResponse) :
    FetchOutcome :=
  match fetchRun maxRetries responses with
  | (.succeeded feats, _) => .success feats
  | (.exhausted, _) => .success []
  | (.failed s, _) => .error s
  | (.attempting _, _) => .success []

/-- The per-(source, window) loop body of `prebakeMonth` (lines 205-221):
fold a successful slice into the bucket; on a caught error, set `sawLimit`
when the status is 403/429, otherwise skip the window. -/
def assembleSlices (maxRetries : Nat)
    (slices : List (Nat → FetchResponse)) :
    List (String × Feature) × Bool :=
  slices.foldl
    (fun acc sl =>
      match fetchSliceRetry maxRetries sl with
      | .success feats => (foldFeatures acc.1 feats, acc.2)
      | .error st =>
          if st == some 403 || st == some 429 then (acc.1, true) else acc)
    ([], false)

/-- The month assembler's decision (spec §4.6). -/
inductive Decision where
  | skipped : Decision
  | deferred : Decision
  | written : Nat → Decision
deriving DecidableEq

/-- The tail of `prebakeMonth` after the windows run (lines 224-235): defer
when the bucket is empty and `sawLimit` is set, else write the bucket. -/
def rebuildDecision (maxRetries : Nat)
    (slices : List (Nat → FetchResponse)) : Decision :=
  let r := assembleSlices maxRetries slices
  if r.1.length == 0 && r.2 then .deferred else .written r.1.length

/-- `prebakeMonth` (`serve-static.mjs` lines 172-236) as a decision function.
`existing` models the persisted output file: `none` when absent, `some none`
when present but `readExistingCount` returns `null` (unreadable), and
`some (some c)` when present with a readable feature count `c`.  The
skip/rebuild logic is lines 177-188; the fetch phase is abstracted by the
slice oracles, one per (source, window) pair in iteration order (sources
whose availability starts after the month contribute no slice). -/
def prebakeMonth (existing : Option (Option Nat)) (retryEmpty : Bool)
    (maxRetries : Nat) (slices : List (Nat → FetchResponse)) : Decision :=
  match existing with
  | some info =>
      if retryEmpty then
        match info with
        | none => rebuildDecision maxRetries slices
        | some cnt =>
            if 0 < cnt then .skipped else rebuildDecision maxRetries slices
      else .skipped
  | none => rebuildDecision maxRetries slices

/-- Gregorian leap-year rule, as implemented by the host `Date`. -/
def isLeap (y : Nat) : Bool :=
  (y % 4 == 0 && y % 100 != 0) || y % 400 == 0

/-- `Date.UTC` interprets a year below 100 as 1900 + that year. -/
def jsFullYear (y : Nat) : Nat := if y < 100 then 1900 + y else y

/-- `daysInMonth` (`serve-static.mjs` line 103):
`new Date(Date.UTC(y, m, 0)).getUTCDate()` — the day count of month
`m` (1..12) of year `y`, with the host calendar's leap handling. -/
def daysInMonth (y m : Nat) : Nat :=
  if m == 2 then (if isLeap (jsFullYear y) then 29 else 28)
  else if m == 4 || m == 6 || m == 9 || m == 11 then 30
  else 31

/-- The window-planning loop of `prebakeMonth` (lines 191-196):
`for (d = 1; d <= dim; d += DAY_MAX) push({ start: d, span: min(DAY_MAX, dim - d + 1) })`.
A window is (start day, span); the start day stands for the ISO date
`y-m-d` pushed by the source.  In the source `dayMax` is the constant
`DAY_MAX = 10`; it is a parameter here so the plan can be stated for any
positive ceiling. -/
def planWindowsAux (dayMax dim : Nat) : Nat → Nat → List (Nat × Nat)
  | 0, _ => []
  | fuel + 1, d =>
      if 0 < dayMax ∧ d ≤ dim then
        (d, min dayMax (dim - d + 1)) :: planWindowsAux dayMax dim fuel (d + dayMax)
      else []

def planWindows (dayMax dim d : Nat) : List (Nat × Nat) :=
  planWindowsAux dayMax dim (dim + 1 - d) d
lemma planWindowsAux_nil (dayMax dim fuel d : Nat) (h : dim < d) :
    planWindowsAux dayMax dim fuel d = [] := by
  cases fuel with
  | zero => rfl
  | succ n =>
      rw [planWindowsAux]
      rw [if_neg]
      omega

lemma planWindowsAux_cover (dayMax : Nat) (h : 0 < dayMax) (dim : Nat) :
    ∀ fuel d, dim + 1 - d ≤ fuel →
      (planWindowsAux dayMax dim fuel d).flatMap (fun w => List.range' w.1 w.2)
        = List.range' d (dim + 1 - d) := by
  intro fuel
  induction fuel with
  | zero =>
      intro d hle
      have hd : dim + 1 - d = 0 := by omega
      rw [hd]
      rfl
  | succ n ih =>
      intro d hle
      by_cases hdd : d ≤ dim
      · rw [planWindowsAux, if_pos ⟨h, hdd⟩, List.flatMap_cons,
          ih (d + dayMax) (by omega)]
        rcases le_or_lt dayMax (dim - d + 1) with hc | hc
        · rw [min_eq_left hc]
          have h2 : dim + 1 - (d + dayMax) = (dim + 1 - d) - dayMax := by omega
          rw [h2]
          rw [List.range'_append_1]
          congr 1
          omega
        · have h0 : dim + 1 - (d + dayMax) = 0 := by omega
          rw [min_eq_right (le_of_lt hc), h0]
          simp
          omega
      · rw [planWindowsAux_nil _ _ _ _ (by omega)]
        have : dim + 1 - d = 0 := by omega
        rw [this]
        rfl

lemma planWindowsAux_mem (dayMax dim : Nat) :
    ∀ fuel d w, w ∈ planWindowsAux dayMax dim fuel d →
      d ≤ w.1 ∧ w.1 ≤ dim ∧ w.2 = min dayMax (dim - w.1 + 1) := by
  intro fuel
  induction fuel with
  | zero => intro d w hw; simp [planWindowsAux] at hw
  | succ n ih =>
      intro d w hw
      rw [planWindowsAux] at hw
      by_cases hc : 0 < dayMax ∧ d ≤ dim
      · rw [if_pos hc] at hw
        rcases List.mem_cons.mp hw with h1 | h2
        · subst h1; exact ⟨le_refl _, hc.2, rfl⟩
        · have := ih (d + dayMax) w h2
          exact ⟨by omega, this.2.1, this.2.2⟩
      · rw [if_neg hc] at hw
        simp at hw

lemma planWindowsAux_sorted (dayMax dim : Nat) :
    ∀ fuel d, ((planWindowsAux dayMax dim fuel d).map Prod.fst).Sorted (· < ·) := by
  intro fuel
  induction fuel with
  | zero => intro d; simp [planWindowsAux]
  | succ n ih =>
      intro d
      rw [planWindowsAux]
      by_cases hc : 0 < dayMax ∧ d ≤ dim
      · rw [if_pos hc]
        rw [List.map_cons, List.sorted_cons]
        refine ⟨?_, ih (d + dayMax)⟩
        intro b hb
        rcases List.mem_map.mp hb with ⟨w, hw, hwb⟩
        obtain ⟨h1, h2, h3⟩ := planWindowsAux_mem dayMax dim n (d + dayMax) w hw
        subst hwb
        omega
      · rw [if_neg hc]; simp

lemma planWindowsAux_dropLast (dayMax dim : Nat) :
    ∀ fuel d, dim + 1 - d ≤ fuel →
      ((planWindowsAux dayMax dim fuel d).dropLast.all
        (fun w => w.2 == dayMax)) = true := by
  intro fuel
  induction fuel with
  | zero => intro d _; rfl
  | succ n ih =>
      intro d hle
      rw [planWindowsAux]
      by_cases hc : 0 < dayMax ∧ d ≤ dim
      · rw [if_pos hc]
        by_cases hrest : d + dayMax ≤ dim
        · have hne : planWindowsAux dayMax dim n (d + dayMax) ≠ [] := by
            cases n with
            | zero => exfalso; omega
            | succ m =>
                rw [planWindowsAux, if_pos ⟨hc.1, hrest⟩]
                simp
          rw [List.dropLast_cons_of_ne_nil hne, List.all_cons]
          have hmin : min dayMax (dim - d + 1) = dayMax := by
            apply min_eq_left; omega
          simp only [hmin, beq_self_eq_true, Bool.true_and]
          exact ih (d + dayMax) (by omega)
        · rw [planWindowsAux_nil _ _ _ _ (by omega)]
          rfl
      · rw [if_neg hc]; rfl

lemma planWindows_cover (dayMax dim : Nat) (h : 0 < dayMax) :
    (planWindows dayMax dim 1).flatMap (fun w => List.range' w.1 w.2)
      = List.range' 1 dim := by
  have := planWindowsAux_cover dayMax h dim (dim + 1 - 1) 1 (le_refl _)
  rw [planWindows]
  rw [this]
  norm_num

/-- **C6.** For every year, month (1..12) and positive day-span ceiling, the
window plan for the month partitions days `1..N` (`N` the month's day count,
leap years accounted for) into consecutive windows: the concatenation of the
planned windows' day ranges is exactly `[1..N]`, the start days are strictly
ascending, every window's span is `min(ceiling, remaining days)`, every
window but the last spans exactly the ceiling, and in particular a 31-day
month with ceiling 10 yields windows (1,10), (11,10), (21,10), (31,1) and a
28-day month yields (1,10), (11,10), (21,8). -/
theorem windowPlanner_partitions_month_c6 (y m dayMax : Nat)
    (hm1 : 1 ≤ m) (hm2 : m ≤ 12) (hd : 0 < dayMax) :
    ((planWindows dayMax (daysInMonth y m) 1).flatMap
        (fun w => List.range' w.1 w.2) = List.range' 1 (daysInMonth y m))
    ∧ ((planWindows dayMax (daysInMonth y m) 1).map Prod.fst).Sorted (· < ·)
    ∧ (∀ w ∈ planWindows dayMax (daysInMonth y m) 1,
        w.2 = min dayMax (daysInMonth y m - w.1 + 1))
    ∧ ((planWindows dayMax (daysInMonth y m) 1).dropLast.all
        (fun w => w.2 == dayMax) = true)
    ∧ planWindows 10 31 1 = [(1, 10), (11, 10), (21, 10), (31, 1)]
    ∧ planWindows 10 28 1 = [(1, 10), (11, 10), (21, 8)]
    ∧ daysInMonth 2001 1 = 31 ∧ daysInMonth 2001 2 = 28
    ∧ daysInMonth 2024 2 = 29 ∧ daysInMonth 2000 2 = 29
    ∧ daysInMonth 1900 2 = 28 := by
  refine ⟨planWindows_cover dayMax (daysInMonth y m) hd,
    planWindowsAux_sorted dayMax (daysInMonth y m) _ 1,
    ?_, planWindowsAux_dropLast dayMax (daysInMonth y m) _ 1 (le_refl _),
    by decide, by decide, by decide, by decide, by decide, by decide, by decide⟩
  intro w hw
  exact (planWindowsAux_mem dayMax (daysInMonth y m) _ 1 w hw).2.2

/-- Witness for C6: instantiated at January and February 2001 with the
source's ceiling `DAY_MAX = 10`. -/
theorem windowPlanner_partitions_month_c6_witness :
    1 ≤ 1 ∧ 1 ≤ 12 ∧ 0 < 10
    ∧ planWindows 10 31 1 = [(1, 10), (11, 10), (21, 10), (31, 1)]
    ∧ planWindows 10 28 1 = [(1, 10), (11, 10), (21, 8)]
    ∧ (planWindows 10 (daysInMonth 2001 1) 1).flatMap
        (fun w => List.range' w.1 w.2) = List.range' 1 (daysInMonth 2001 1) :=
  ⟨by decide, by decide, by decide,
    (windowPlanner_partitions_month_c6 2001 1 10 (by decide) (by decide)
      (by decide)).2.2.2.2.1,
    (windowPlanner_partitions_month_c6 2001 1 10 (by decide) (by decide)
      (by decide)).2.2.2.2.2.1,
    (windowPlanner_partitions_month_c6 2001 1 10 (by decide) (by decide)
      (by decide)).1⟩

/-- **C9.** Under the run's fixed bounding box (finite, with `west ≤ east`
and `south ≤ north`), the Geometry Filter returns true iff the coordinates
are finite numbers inside the box (boundaries included); boundary values
`lon = west`, `lat = north` pass, and any non-finite longitude or latitude
makes it return false. -/
theorem geometryFilter_inside_iff_c9 (west south east north : ℚ)
    (hwe : west ≤ east) (hsn : south ≤ north) :
    (∀ lon lat : JSNum, isInBox west south east north lon lat = true ↔
      ∃ ql qa : ℚ, lon = .num ql ∧ lat = .num qa
        ∧ west ≤ ql ∧ ql ≤ east ∧ south ≤ qa ∧ qa ≤ north)
    ∧ isInBox west south east north (.num west) (.num north) = true
    ∧ (∀ lon lat : JSNum, jsFinite lon = false →
        isInBox west south east north lon lat = false)
    ∧ (∀ lon lat : JSNum, jsFinite lat = false →
        isInBox west south east north lon lat = false) := by
  refine ⟨?_, ?_, ?_, ?_⟩
  · intro lon lat
    cases lon <;> cases lat <;>
      simp [isInBox, jsGe, jsLe, jsFinite, and_assoc]
  · simp [isInBox, jsGe, jsLe, hwe, hsn]
  · intro lon lat h
    cases lon <;> simp [jsFinite] at h <;>
      cases lat <;> simp [isInBox, jsGe, jsLe]
  · intro lon lat h
    cases lat <;> simp [jsFinite] at h <;>
      cases lon <;> simp [isInBox, jsGe, jsLe]

/-- Witness for C9: the batch importer's default box `-125,32,-113,43`
(east bound taken integral), with NaN and boundary checks evaluated. -/
theorem geometryFilter_inside_iff_c9_witness :
    ((-125 : ℚ) ≤ -113 ∧ (32 : ℚ) ≤ 43)
    ∧ isInBox (-125) 32 (-113) 43 (.num (-125)) (.num 43) = true
    ∧ isInBox (-125) 32 (-113) 43 .nan (.num 40) = false :=
  ⟨⟨by norm_num, by norm_num⟩,
    (geometryFilter_inside_iff_c9 (-125) 32 (-113) 43 (by norm_num)
      (by norm_num)).2.1,
    (geometryFilter_inside_iff_c9 (-125) 32 (-113) 43 (by norm_num)
      (by norm_num)).2.2.1 .nan (.num 40) rfl⟩

lemma fetchStep_rateLimited (maxRetries n : Nat) (r : FetchResponse)
    (h : rateLimited r = true) :
    fetchStep maxRetries r n =
      (if n + 1 ≤ maxRetries then .attempting (n + 1) else .exhausted,
        some (min 120000 (15000 * (n + 1)))) := by
  cases r with
  | ok fs => simp [rateLimited] at h
  | otherErr => simp [rateLimited] at h
  | httpErr s =>
      simp only [rateLimited] at h
      simp [fetchStep, h]

lemma fetchRunFrom_allRL (maxRetries : Nat) (responses : Nat → FetchResponse)
    (h : ∀ k, k ≤ maxRetries → rateLimited (responses k) = true) :
    ∀ gas n, n + gas = maxRetries + 1 → 0 < gas →
      fetchRunFrom maxRetries responses gas n = (.exhausted, true) := by
  intro gas
  induction gas with
  | zero => intro n _ h0; omega
  | succ g ih =>
      intro n hsum _
      have hn : n ≤ maxRetries := by omega
      have hr := h n hn
      rw [fetchRunFrom, fetchStep_rateLimited maxRetries n _ hr]
      by_cases hlast : n + 1 ≤ maxRetries
      · rw [if_pos hlast]
        have hg : 0 < g := by omega
        simp only []
        rw [ih (n + 1) (by omega) hg]
        simp [hr]
      · rw [if_neg hlast]
        simp [hr]

/-- **C7.** On a rate-limit-class failure (HTTP 403 or 429) at attempt `n`,
the fetcher sleeps exactly `min(120000, 15000 * (n + 1))` ms and moves to
`Attempting (n+1)` when `n + 1 ≤ maxRetries`, else to `Exhausted`; the delay
grows linearly (`15000 * (n+1)` for `n ≤ 6`) and is capped at 120000 ms from
`n = 7` on — it is never exponential and never exceeds the cap. -/
theorem retryBackoff_linear_capped_c7 (maxRetries n s : Nat)
    (hs : s = 403 ∨ s = 429) :
    fetchStep maxRetries (.httpErr s) n =
      (if n + 1 ≤ maxRetries then .attempting (n + 1) else .exhausted,
        some (min 120000 (15000 * (n + 1))))
    ∧ min 120000 (15000 * (n + 1)) ≤ 120000
    ∧ (n ≤ 6 → min 120000 (15000 * (n + 1)) = 15000 * (n + 1))
    ∧ (7 ≤ n → min 120000 (15000 * (n + 1)) = 120000) := by
  refine ⟨?_, min_le_left _ _, ?_, ?_⟩
  · apply fetchStep_rateLimited
    rcases hs with h | h <;> simp [rateLimited, h]
  · intro h; apply min_eq_right; omega
  · intro h; apply min_eq_left; omega

/-- Witness for C7: a 429 at attempt 0 with `maxRetries = 4` sleeps 15000 ms
and moves to `Attempting 1`; at attempt 4 it sleeps 75000 ms and exhausts. -/
theorem retryBackoff_linear_capped_c7_witness :
    ((429 : Nat) = 403 ∨ (429 : Nat) = 429)
    ∧ fetchStep 4 (.httpErr 429) 0 = (.attempting 1, some 15000)
    ∧ fetchStep 4 (.httpErr 429) 4 = (.exhausted, some 75000) :=
  ⟨Or.inr rfl,
    by simpa using (retryBackoff_linear_capped_c7 4 0 429 (Or.inr rfl)).1,
    by simpa using (retryBackoff_linear_capped_c7 4 4 429 (Or.inr rfl)).1⟩

/-- The feature returned by the successful fifth attempt in the C4
counterexample. -/
def c4Feat : Feature :=
  { lon := .num (-120), lat := .num 37, acq_date := some "2001-04-01",
    acq_time := some "0353", satellite := some "Terra",
    instrument := some "MODIS", confidence := some "80",
    frp := some (.num 10), daynight := some "D", version := some "6.1",
    src := "" }

/-- Response oracle for the C4 counterexample: four consecutive 429s, then a
successful response carrying one feature. -/
def c4Responses : Nat → FetchResponse :=
  fun n => if n < 4 then .httpErr 429 else .ok [c4Feat]

/-- Counterexample to C4 as stated: with `maxRetries = 4`, after 4
consecutive rate-limit responses the fetcher is NOT exhausted — it issues a
fifth attempt, and if that one succeeds it returns its features, not zero. -/
theorem retryFetcher_four_not_exhausted_c4_cex :
    (∀ n < 4, c4Responses n = .httpErr 429)
    ∧ fetchRun 4 c4Responses = (.succeeded [c4Feat], true)
    ∧ fetchSliceRetry 4 c4Responses = .success [c4Feat]
    ∧ fetchSliceRetry 4 c4Responses ≠ .success []
    ∧ (fetchRun 4 c4Responses).1 ≠ .exhausted := by
  refine ⟨?_, by decide, by decide, by decide, by decide⟩
  intro n hn
  rw [c4Responses, if_pos hn]

/-- **C4 (amended).** It takes `maxRetries + 1` consecutive rate-limit
responses — five when `maxRetries = 4` — to drive the fetcher to `Exhausted`
(after only four it is still attempting); an exhausted run returns zero
features to the caller instead of propagating an error. -/
theorem retryFetcher_exhausted_after_maxRetries_succ_c4
    (maxRetries : Nat) (responses : Nat → FetchResponse)
    (h : ∀ k, k ≤ maxRetries → rateLimited (responses k) = true) :
    fetchRun maxRetries responses = (.exhausted, true)
    ∧ fetchSliceRetry maxRetries responses = .success [] := by
  have hrun : fetchRun maxRetries responses = (.exhausted, true) :=
    fetchRunFrom_allRL maxRetries responses h (maxRetries + 1) 0
      (by omega) (by omega)
  refine ⟨hrun, ?_⟩
  rw [fetchSliceRetry, hrun]

/-- Witness for C4: five consecutive 403s with `maxRetries = 4` exhaust the
fetcher and deliver the empty feature list. -/
theorem retryFetcher_exhausted_after_maxRetries_succ_c4_witness :
    rateLimited (.httpErr 403) = true
    ∧ fetchRun 4 (fun _ => .httpErr 403) = (.exhausted, true)
    ∧ fetchSliceRetry 4 (fun _ => .httpErr 403) = .success [] :=
  ⟨by decide,
    (retryFetcher_exhausted_after_maxRetries_succ_c4 4 (fun _ => .httpErr 403)
      (fun _ _ => rfl)).1,
    (retryFetcher_exhausted_after_maxRetries_succ_c4 4 (fun _ => .httpErr 403)
      (fun _ _ => rfl)).2⟩

/-- **C1 (code bug).** A month whose every (source, window) request is
rate-limited on all five attempts ends with an empty bucket and a rate limit
was observed for the window (the run's flag is true), yet `prebakeMonth`
writes an empty output file instead of deferring: `fetchSliceRetry` swallows
403/429 and returns `[]`, so the `sawLimit` branch in the assembler's catch
block is unreachable and the `count === 0 && sawLimit` guard never fires. -/
theorem prebake_writes_empty_month_despite_rate_limit_c1 :
    prebakeMonth none true 4 [fun _ => .httpErr 429] = .written 0
    ∧ (fetchRun 4 (fun _ => .httpErr 429)).2 = true
    ∧ (assembleSlices 4 [fun _ => .httpErr 429]).1 = []
    ∧ (assembleSlices 4 [fun _ => .httpErr 429]).2 = false :=
  ⟨rfl, rfl, rfl, rfl⟩

/-- **C5 (amended).** For a month whose output file exists: a readable
positive count is skipped (whatever the rebuild-empty flag); an unreadable
count is rebuilt only when rebuild-empty is enabled — with the flag disabled
any existing file, unreadable or not, is skipped without reading its count;
a readable zero count with rebuild-empty enabled is rebuilt; a missing file
is always rebuilt.  "Rebuilt" means the decision is the fetch phase's
decision; no case is fatal. -/
theorem monthAssembler_existing_file_policy_c5 (retryEmpty : Bool)
    (maxRetries : Nat) (slices : List (Nat → FetchResponse)) (n : Nat) :
    (0 < n →
      prebakeMonth (some (some n)) retryEmpty maxRetries slices = .skipped)
    ∧ prebakeMonth (some none) true maxRetries slices
        = rebuildDecision maxRetries slices
    ∧ prebakeMonth (some none) false maxRetries slices = .skipped
    ∧ prebakeMonth (some (some 0)) true maxRetries slices
        = rebuildDecision maxRetries slices
    ∧ prebakeMonth none retryEmpty maxRetries slices
        = rebuildDecision maxRetries slices := by
  refine ⟨?_, rfl, rfl, rfl, rfl⟩
  intro h
  cases retryEmpty with
  | false => rfl
  | true => simp [prebakeMonth, h]

/-- Counterexample to C5 as stated: an existing but unreadable output file
with rebuild-empty disabled is skipped, not rebuilt (the rebuild path would
have decided `written 0` here). -/
theorem monthAssembler_unreadable_skipped_c5_cex :
    prebakeMonth (some none) false 4 [] = .skipped
    ∧ rebuildDecision 4 [] = .written 0
    ∧ Decision.skipped ≠ .written 0 :=
  ⟨rfl, rfl, by decide⟩

/-- Witness for C5: an existing file with 3 readable features is skipped. -/
theorem monthAssembler_existing_file_policy_c5_witness :
    0 < 3 ∧ prebakeMonth (some (some 3)) true 4 [] = .skipped :=
  ⟨by decide,
    (monthAssembler_existing_file_policy_c5 true 4 [] 3).1 (by decide)⟩

/-- **C2 (amended).** In the fetch pipeline (`prebakeMonth`), folding a
feature whose Identity Key is already in the bucket leaves the bucket
unchanged — first-seen wins — so of two key-equal records the first one
folded is the one in the month's output.  (In the batch-import variant the
fold is an unconditional `Map.set`, so there the later duplicate overwrites
the stored copy; see the counterexample.) -/
theorem dedup_first_seen_wins_fetch_c2 :
    (∀ (b : List (String × Feature)) (f : Feature),
      mapHas b (featureKey f) = true → foldFeature b f = b)
    ∧ (∀ A B : Feature, featureKey A = featureKey B →
        foldFeatures [] [A, B] = [(featureKey A, A)]) := by
  constructor
  · intro b f h
    simp [foldFeature, h]
  · intro A B h
    simp [foldFeatures, foldFeature, mapHas, h]

/-- First copy of a duplicated detection, as two sources would report it
(fetch pipeline; differing `frp` and `src`). -/
def c2FeatA : Feature :=
  { lon := .num (-120), lat := .num 37, acq_date := some "2001-04-01",
    acq_time := some "0353", satellite := some "Terra",
    instrument := some "MODIS", confidence := some "80",
    frp := some (.num 10), daynight := some "D", version := some "6.1",
    src := "MODIS_SP" }

/-- Second copy: same Identity Key, different fire-radiative-power. -/
def c2FeatB : Feature :=
  { c2FeatA with frp := some (.num 20), src := "VIIRS_SNPP_SP" }

/-- Witness for C2: the two key-equal copies collapse to the first. -/
theorem dedup_first_seen_wins_fetch_c2_witness :
    mapHas [(featureKey c2FeatA, c2FeatA)] (featureKey c2FeatB) = true
    ∧ foldFeature [(featureKey c2FeatA, c2FeatA)] c2FeatB
        = [(featureKey c2FeatA, c2FeatA)]
    ∧ featureKey c2FeatA = featureKey c2FeatB
    ∧ foldFeatures [] [c2FeatA, c2FeatB] = [(featureKey c2FeatA, c2FeatA)] :=
  ⟨by decide,
    dedup_first_seen_wins_fetch_c2.1 [(featureKey c2FeatA, c2FeatA)] c2FeatB
      (by decide),
    by decide,
    dedup_first_seen_wins_fetch_c2.2 c2FeatA c2FeatB (by decide)⟩

/-- First copy of a duplicated detection in the batch-import variant. -/
def c2DupA : BFeature :=
  { lon := .num (-120), lat := .num 37, acq_date := some "2001-04-01",
    acq_time := some "0353", satellite := some "Terra",
    instrument := some "MODIS", confidence := some "80",
    frp := some "10.5", daynight := some "D", version := some "6.1" }

/-- Second copy: same Identity Key, different fire-radiative-power cell. -/
def c2DupB : BFeature := { c2DupA with frp := some "20.1" }

/-- Counterexample to C2 as stated: in the batch-import variant
(`main` of `src/unnamed/part_000`), folding a feature whose key is already
present does NOT leave the bucket unchanged — the unconditional `Map.set`
replaces the stored feature, so the LAST duplicate's fields survive. -/
theorem dedup_batch_overwrites_c2_cex :
    mapHas (bSet [] c2DupA) (featureKeyB c2DupB) = true
    ∧ bSet (bSet [] c2DupA) c2DupB ≠ bSet [] c2DupA
    ∧ bSet (bSet [] c2DupA) c2DupB = [(featureKeyB c2DupA, c2DupB)] :=
  ⟨by decide, by decide, by decide⟩

/-- **C8.** Deduplication is commutative in membership: folding `[A, B]` and
`[B, A]` into two empty buckets yields buckets whose key sets agree on every
key — in the fetch pipeline's first-wins fold and in the batch variant's
last-wins fold alike. -/
theorem dedup_membership_commutative_c8 :
    (∀ (A B : Feature) (k : String),
      mapHas (foldFeatures [] [A, B]) k = mapHas (foldFeatures [] [B, A]) k)
    ∧ (∀ (A B : BFeature) (k : String),
      mapHas (bSet (bSet [] A) B) k = mapHas (bSet (bSet [] B) A) k) := by
  constructor
  · intro A B k
    by_cases h : featureKey A = featureKey B
    · simp [foldFeatures, foldFeature, mapHas, h]
    · simp [foldFeatures, foldFeature, mapHas, h, Ne.symm h, Bool.or_comm]
  · intro A B k
    by_cases h : featureKeyB A = featureKeyB B
    · simp [bSet, mapSet, mapHas, h]
    · simp [bSet, mapSet, mapHas, h, Ne.symm h, Bool.or_comm]

/-- **C10.** Two features with equal 4-decimal-rounded coordinates and equal
acquisition date and time whose instrument and satellite fields are each
missing or empty get the same Identity Key (the missing fields collapse to
the empty string), and folding both leaves a single bucket entry — in both
the fetch pipeline and the batch-import variant. -/
theorem identityKey_missing_fields_merge_c10 :
    (∀ f g : Feature,
      fixed4String f.lon = fixed4String g.lon →
      fixed4String f.lat = fixed4String g.lat →
      f.acq_date = g.acq_date → f.acq_time = g.acq_time →
      (f.instrument = none ∨ f.instrument = some "") →
      (g.instrument = none ∨ g.instrument = some "") →
      (f.satellite = none ∨ f.satellite = some "") →
      (g.satellite = none ∨ g.satellite = some "") →
      featureKey f = featureKey g ∧ (foldFeatures [] [f, g]).length = 1)
    ∧ (∀ f g : BFeature,
      fixed4String f.lon = fixed4String g.lon →
      fixed4String f.lat = fixed4String g.lat →
      f.acq_date = g.acq_date → f.acq_time = g.acq_time →
      (f.instrument = none ∨ f.instrument = some "") →
      (g.instrument = none ∨ g.instrument = some "") →
      (f.satellite = none ∨ f.satellite = some "") →
      (g.satellite = none ∨ g.satellite = some "") →
      featureKeyB f = featureKeyB g ∧ (bSet (bSet [] f) g).length = 1) := by
  constructor
  · intro f g h1 h2 h3 h4 hi1 hi2 hs1 hs2
    have hk : featureKey f = featureKey g := by
      rw [featureKey, featureKey, h1, h2, h3, h4]
      rcases hi1 with h | h <;> rcases hi2 with h' | h' <;>
        rcases hs1 with h'' | h'' <;> rcases hs2 with h''' | h''' <;>
          simp [h, h', h'', h''', jsOrEmpty]
    refine ⟨hk, ?_⟩
    simp [foldFeatures, foldFeature, mapHas, hk]
  · intro f g h1 h2 h3 h4 hi1 hi2 hs1 hs2
    have hk : featureKeyB f = featureKeyB g := by
      rw [featureKeyB, featureKeyB, h1, h2, h3, h4]
      rcases hi1 with h | h <;> rcases hi2 with h' | h' <;>
        rcases hs1 with h'' | h'' <;> rcases hs2 with h''' | h''' <;>
          simp [h, h', h'', h''', jsOrEmpty]
    refine ⟨hk, ?_⟩
    simp [bSet, mapSet, mapHas, hk]

/-- A record with instrument and satellite absent (fetch pipeline). -/
def c10FeatF : Feature :=
  { lon := .num (-118), lat := .num 36, acq_date := some "2020-01-01",
    acq_time := some "0100", satellite := none, instrument := none,
    confidence := some "50", frp := none, daynight := some "N",
    version := none, src := "" }

/-- A record with instrument and satellite present but empty. -/
def c10FeatG : Feature :=
  { c10FeatF with
    satellite := some "", instrument := some "", confidence := some "90" }

/-- Batch-variant counterpart of `c10FeatF`. -/
def c10BF : BFeature :=
  { lon := .num (-118), lat := .num 36, acq_date := some "2020-01-01",
    acq_time := some "0100", satellite := none, instrument := none,
    confidence := some "50", frp := none, daynight := some "N",
    version := none }

/-- Batch-variant counterpart of `c10FeatG`. -/
def c10BG : BFeature :=
  { c10BF with
    satellite := some "", instrument := some "", confidence := some "90" }

/-- Witness for C10: a missing instrument/satellite and an empty one yield
the same key, and the two records merge to one entry in both folds. -/
theorem identityKey_missing_fields_merge_c10_witness :
    (c10FeatF.instrument = none ∨ c10FeatF.instrument = some "")
    ∧ (c10FeatG.instrument = none ∨ c10FeatG.instrument = some "")
    ∧ featureKey c10FeatF = featureKey c10FeatG
    ∧ (foldFeatures [] [c10FeatF, c10FeatG]).length = 1
    ∧ featureKeyB c10BF = featureKeyB c10BG
    ∧ (bSet (bSet [] c10BF) c10BG).length = 1 :=
  ⟨by decide, by decide,
    (identityKey_missing_fields_merge_c10.1 c10FeatF c10FeatG rfl rfl rfl rfl
      (by decide) (by decide) (by decide) (by decide)).1,
    (identityKey_missing_fields_merge_c10.1 c10FeatF c10FeatG rfl rfl rfl rfl
      (by decide) (by decide) (by decide) (by decide)).2,
    (identityKey_missing_fields_merge_c10.2 c10BF c10BG rfl rfl rfl rfl
      (by decide) (by decide) (by decide) (by decide)).1,
    (identityKey_missing_fields_merge_c10.2 c10BF c10BG rfl rfl rfl rfl
      (by decide) (by decide) (by decide) (by decide)).2⟩

/-- **C3 (amended).** The batch-import normalizer rejects a raw row exactly
when its coalesced latitude or longitude does not parse to a finite number
or the Geometry Filter rejects the coordinate; the fetch pipeline's
normalizer, by contrast, passes the parsed coordinates through with no
finiteness or geometry check and always yields a feature. -/
theorem featureNormalizer_reject_policy_c3 :
    (∀ (number : String → JSNum) (west south east north : ℚ) (row : Row),
      rowToFeatureB number west south east north row = none ↔
        (jsFinite (jsNumber number (row.latitude.or (row.Latitude.or row.lat)))
            = false
          ∨ jsFinite (jsNumber number
              (row.longitude.or (row.Longitude.or row.lon))) = false
          ∨ isInBox west south east north
              (jsNumber number (row.longitude.or (row.Longitude.or row.lon)))
              (jsNumber number (row.latitude.or (row.Latitude.or row.lat)))
              = false))
    ∧ (∀ (number : String → JSNum) (row : SRow),
        (rowToFeatureS number row).lat = jsNumber number row.latitude
        ∧ (rowToFeatureS number row).lon = jsNumber number row.longitude) := by
  constructor
  · intro number w s e n row
    rw [rowToFeatureB]
    by_cases h1 : jsFinite (jsNumber number
        (row.latitude.or (row.Latitude.or row.lat))) = false
    · simp [h1]
    · rw [Bool.not_eq_false] at h1
      by_cases h2 : jsFinite (jsNumber number
          (row.longitude.or (row.Longitude.or row.lon))) = false
      · simp [h1, h2]
      · rw [Bool.not_eq_false] at h2
        by_cases h3 : isInBox w s e n
            (jsNumber number (row.longitude.or (row.Longitude.or row.lon)))
            (jsNumber number (row.latitude.or (row.Latitude.or row.lat)))
            = false
        · simp [h1, h2, h3]
        · rw [Bool.not_eq_false] at h3
          simp [h1, h2, h3]
  · intro number row
    exact ⟨rfl, rfl⟩

/-- A raw row with every column absent: its latitude parses to NaN. -/
def c3Row : SRow :=
  { latitude := none, longitude := none, acq_date := none, acq_time := none,
    satellite := none, instrument := none, confidence := none, frp := none,
    daynight := none, version := none, src := none, source := none }

/-- Counterexample to C3 as stated: the fetch pipeline's normalizer
(`rowToFeature` in `serve-static.mjs`) yields a canonical feature — which the
dedup fold then inserts into the month bucket — even for a record whose
latitude cannot be parsed (here: absent, hence NaN). -/
theorem fetchNormalizer_never_rejects_c3_cex :
    c3Row.latitude = none
    ∧ (rowToFeatureS (fun _ => .num 0) c3Row).lat = .nan
    ∧ jsFinite (rowToFeatureS (fun _ => .num 0) c3Row).lat = false
    ∧ featureKey (rowToFeatureS (fun _ => .num 0) c3Row)
        = "NaN:NaN:undefined:undefined::"
    ∧ foldFeatures [] [rowToFeatureS (fun _ => .num 0) c3Row]
        = [(featureKey (rowToFeatureS (fun _ => .num 0) c3Row),
            rowToFeatureS (fun _ => .num 0) c3Row)] :=
  ⟨rfl, rfl, rfl, by decide, by decide⟩
